import Mathlib

/-!
Shallow embedding of the frame-synchronization and swapchain-lifecycle
subsystem of the `rust_vulkan` application (`src/app.rs`, `src/main.rs`,
`src/app/framebuffer.rs`, `src/app/app_defines.rs`).

Vulkan handles are modelled as natural-number identifiers; the nullable
fence entries of the images-in-flight table are `Option Fence` (with
`none` standing for `vk::Fence::null()`).  Calls into the Vulkan driver
are recorded in an explicit action trace, and the results the driver
returns (`acquire_next_image_khr`, `queue_present_khr`) are inputs to the
model, since they are decided by the platform.
-/

set_option maxHeartbeats 1000000

namespace RustVulkan

abbrev Fence := Nat
abbrev Sem := Nat

/-- `vk::Extent2D`. -/
structure Extent2D where
  width : Nat
  height : Nat
deriving DecidableEq, Repr

/-- A `vk::Framebuffer` is modelled by the record of parameters it was
created with (`framebuffer.rs`: render pass, attachment list, width,
height, layers). -/
structure Framebuffer where
  renderPass : Nat
  attachments : List Nat
  width : Nat
  height : Nat
  layers : Nat
deriving DecidableEq, Repr

/-- The fields of `app_data::Data` that the frame scheduler and the
swapchain lifecycle read or write. -/
structure Data where
  swapchainImages : List Nat
  swapchainImageViews : List Nat
  swapchainExtent : Extent2D
  renderPass : Nat
  depthImageView : Nat
  framebuffers : List Framebuffer
  commandBuffers : List Nat
  uniformBuffers : List Nat
  uniformBuffersMemory : List Nat
  imageAvailableSemaphores : List Sem
  renderFinishedSemaphores : List Sem
  inFlightFences : List Fence
  imagesInFlight : List (Option Fence)
deriving DecidableEq, Repr

/-- `App` (app.rs): the scheduler state the render loop mutates. -/
structure App where
  data : Data
  frame : Nat
  resized : Bool
deriving DecidableEq, Repr

/-- `app_defines::MAX_FRAMES_IN_FLIGHT`. -/
def MAX_FRAMES_IN_FLIGHT : Nat := 2

/-- Pipeline stage flags used by the submission. -/
inductive Stage where
  | colorAttachmentOutput
  | otherStage
deriving DecidableEq, Repr

/-- One recorded call into the Vulkan driver. -/
inductive Action where
  | waitForFence (f : Fence)
  | acquireImage (signal : Sem)
  | updateUniform (imageIndex : Nat)
  | resetFence (f : Fence)
  | queueSubmit (waitSem : Sem) (waitStage : Stage) (cmdBuf : Nat)
      (signalSem : Sem) (fence : Fence)
  | queuePresent (waitSem : Sem) (imageIndex : Nat)
  | deviceWaitIdle
  | freeCommandBuffers
  | destroyDescriptorPool
  | freeUniformBufferMemory (m : Nat)
  | destroyUniformBuffer (b : Nat)
  | destroyDepthImageView
  | freeDepthImageMemory
  | destroyDepthImage
  | destroyFramebuffer (fb : Framebuffer)
  | destroyPipeline
  | destroyPipelineLayout
  | destroyRenderPass
  | destroyImageView (v : Nat)
  | destroySwapchain
  | destroyFence (f : Fence)
  | destroySemaphore (s : Sem)
  | freeIndexBufferMemory
  | destroyIndexBuffer
  | freeVertexBufferMemory
  | destroyVertexBuffer
  | destroyCommandPool
  | destroyDescriptorSetLayout
  | destroyDevice
  | destroySurface
  | destroyDebugMessenger
  | destroyInstance
  | createSwapchain
  | createImageViews
  | createRenderPass
  | createPipeline
  | createDepthObjects
  | createFramebuffers
  | createUniformBuffers
  | createDescriptorPool
  | createDescriptorSets
  | createCommandBuffers
deriving DecidableEq, Repr

/-- Result of `acquire_next_image_khr` as `render` distinguishes its
cases (app.rs lines 124-128): a valid index, `ERROR_OUT_OF_DATE_KHR`, or
any other error code. -/
inductive AcquireResult where
  | ok (imageIndex : Nat)
  | outOfDate
  | err (code : Nat)
deriving DecidableEq, Repr

/-- Result of `queue_present_khr` as `render` distinguishes its cases
(app.rs lines 162-169). -/
inductive PresentResult where
  | success
  | suboptimal
  | outOfDate
  | err (code : Nat)
deriving DecidableEq, Repr

/-- `framebuffer::create` (framebuffer.rs lines 6-22): one framebuffer
per swapchain image view, bound to the render pass, sized to the
swapchain extent, with the single attachment `[*i]` (the color view). -/
def framebuffer_create (d : Data) : Data :=
  { d with framebuffers := d.swapchainImageViews.map (fun v =>
      { renderPass := d.renderPass
        attachments := [v]
        width := d.swapchainExtent.width
        height := d.swapchainExtent.height
        layers := 1 }) }

/-- The driver calls issued by `App::destroy_swapchain` (app.rs lines
226-240), in source order. -/
def destroy_swapchain_trace (d : Data) : List Action :=
  [Action.freeCommandBuffers, Action.destroyDescriptorPool]
    ++ d.uniformBuffersMemory.map Action.freeUniformBufferMemory
    ++ d.uniformBuffers.map Action.destroyUniformBuffer
    ++ [Action.destroyDepthImageView, Action.freeDepthImageMemory,
        Action.destroyDepthImage]
    ++ d.framebuffers.map Action.destroyFramebuffer
    ++ [Action.destroyPipeline, Action.destroyPipelineLayout,
        Action.destroyRenderPass]
    ++ d.swapchainImageViews.map Action.destroyImageView
    ++ [Action.destroySwapchain]

/-- The creation calls issued by `App::recreate_swapchain` after the
teardown (app.rs lines 180-195), in source order. -/
def rebuild_trace : List Action :=
  [Action.createSwapchain, Action.createImageViews, Action.createRenderPass,
   Action.createPipeline, Action.createDepthObjects, Action.createFramebuffers,
   Action.createUniformBuffers, Action.createDescriptorPool,
   Action.createDescriptorSets, Action.createCommandBuffers]

/-- `Vec::resize(n, fill)`: truncate to `n` elements, or pad with `fill`
up to length `n`. -/
def vecResize (xs : List α) (n : Nat) (fill : α) : List α :=
  xs.take n ++ List.replicate (n - xs.length) fill

/-- Modelled from the spec: the builders that `recreate_swapchain` calls
(`swapchain::create`, `swapchain::create_swapchain_image_views`,
`pipeline::create_render_pass`, `pipeline::create_pipeline`,
`swapchain::create_depth_objects`, `vertex_buffer::create_uniform_buffers`,
the descriptor builders and `command_buffer::create_command_buffers`) are
not under `src/`; per spec sections 4.1 and 4.2 they refill the registry
with fresh handles for the new surface state.  This record supplies those
fresh handles. -/
structure RecreateEnv where
  newImages : List Nat
  newImageViews : List Nat
  newExtent : Extent2D
  newRenderPass : Nat
  newDepthImageView : Nat
  newUniformBuffers : List Nat
  newUniformBuffersMemory : List Nat
  newCommandBuffers : List Nat
deriving DecidableEq, Repr

/-- `App::recreate_swapchain` (app.rs lines 176-200): wait for device
idle, run `destroy_swapchain`, rebuild everything, then
`images_in_flight.resize(swapchain_images.len(), vk::Fence::null())`. -/
def recreate_swapchain (app : App) (env : RecreateEnv) : App × List Action :=
  let d := app.data
  let d1 : Data :=
    { d with swapchainImages := env.newImages
             swapchainImageViews := env.newImageViews
             swapchainExtent := env.newExtent
             renderPass := env.newRenderPass
             depthImageView := env.newDepthImageView }
  let d2 := framebuffer_create d1
  let d3 : Data :=
    { d2 with uniformBuffers := env.newUniformBuffers
              uniformBuffersMemory := env.newUniformBuffersMemory
              commandBuffers := env.newCommandBuffers }
  let d4 : Data :=
    { d3 with imagesInFlight :=
        vecResize d3.imagesInFlight d3.swapchainImages.length none }
  ({ app with data := d4 },
   Action.deviceWaitIdle :: (destroy_swapchain_trace d ++ rebuild_trace))

/-- `App::render` (app.rs lines 111-174).  The returned pair carries the
result (`Ok` with the new scheduler state, or the propagated error code)
together with the full trace of driver calls the function issued. -/
def render (app : App) (acq : AcquireResult) (pres : PresentResult)
    (env : RecreateEnv) : Except Nat App × List Action :=
  let d := app.data
  let inFlightFence := d.inFlightFences.getD app.frame 0
  let t0 : List Action :=
    [Action.waitForFence inFlightFence,
     Action.acquireImage (d.imageAvailableSemaphores.getD app.frame 0)]
  match acq with
  | AcquireResult.outOfDate =>
      let r := recreate_swapchain app env
      (Except.ok r.fst, t0 ++ r.snd)
  | AcquireResult.err e => (Except.error e, t0)
  | AcquireResult.ok imageIndex =>
      let crossWait : List Action :=
        match d.imagesInFlight.getD imageIndex none with
        | some f => [Action.waitForFence f]
        | none => []
      let d1 : Data :=
        { d with imagesInFlight :=
            d.imagesInFlight.set imageIndex (some inFlightFence) }
      let t1 : List Action := t0 ++ crossWait ++
        [Action.updateUniform imageIndex,
         Action.resetFence inFlightFence,
         Action.queueSubmit (d1.imageAvailableSemaphores.getD app.frame 0)
           Stage.colorAttachmentOutput (d1.commandBuffers.getD imageIndex 0)
           (d1.renderFinishedSemaphores.getD app.frame 0) inFlightFence,
         Action.queuePresent (d1.renderFinishedSemaphores.getD app.frame 0)
           imageIndex]
      let app1 : App := { app with data := d1 }
      let changed : Bool :=
        decide (pres = PresentResult.suboptimal)
          || decide (pres = PresentResult.outOfDate)
      if app1.resized || changed then
        let app2 : App := { app1 with resized := false }
        let r := recreate_swapchain app2 env
        (Except.ok { r.fst with frame := (r.fst.frame + 1) % MAX_FRAMES_IN_FLIGHT },
         t1 ++ r.snd)
      else
        match pres with
        | PresentResult.err e => (Except.error e, t1)
        | _ =>
            (Except.ok { app1 with frame := (app1.frame + 1) % MAX_FRAMES_IN_FLIGHT },
             t1)

/-- The driver calls issued by `App::destroy` (app.rs lines 202-224), in
source order: device-idle wait, swapchain teardown, then the long-lived
objects in reverse creation order. -/
def app_destroy_trace (d : Data) (validationEnabled : Bool) : List Action :=
  Action.deviceWaitIdle ::
    (destroy_swapchain_trace d
      ++ d.inFlightFences.map Action.destroyFence
      ++ d.renderFinishedSemaphores.map Action.destroySemaphore
      ++ d.imageAvailableSemaphores.map Action.destroySemaphore
      ++ [Action.freeIndexBufferMemory, Action.destroyIndexBuffer,
          Action.freeVertexBufferMemory, Action.destroyVertexBuffer,
          Action.destroyCommandPool, Action.destroyDescriptorSetLayout,
          Action.destroyDevice, Action.destroySurface]
      ++ (if validationEnabled then [Action.destroyDebugMessenger] else [])
      ++ [Action.destroyInstance])

/-- Outcome of one `app.render(&window)` call as observed by `main`. -/
inductive RenderOutcome where
  | ok
  | fatal (code : Nat)
deriving DecidableEq, Repr

/-- The events `main`'s event loop (main.rs lines 27-50) reacts to.  A
`mainEventsCleared` event carries the outcome the render call would
produce, since that outcome is decided by the driver. -/
inductive Ev where
  | mainEventsCleared (r : RenderOutcome)
  | resizedEvent (w h : Nat)
  | closeRequested
  | otherEvent
deriving DecidableEq, Repr

/-- How the process ends: normal exit after the event loop stops, or a
panic/abort path (`unwrap` on a render error). -/
inductive ProcExit where
  | exitCode0
  | panicked
deriving DecidableEq, Repr

/-- Observable steps the event-loop closure takes. -/
inductive LoopAct where
  | renderCall
  | panicAbort
  | destroyCall
deriving DecidableEq, Repr

/-- The mutable state captured by `main`'s event-loop closure:
`destroying`, `minimized`, the scheduler's `resized` flag, and whether
the process already stopped. -/
structure LoopState where
  destroying : Bool
  minimized : Bool
  appResized : Bool
  exited : Option ProcExit
deriving DecidableEq, Repr

/-- The loop state when the event loop starts: the window is created
with a fixed non-zero size (1024 x 768). -/
def initLoopState : LoopState :=
  { destroying := false, minimized := false, appResized := false, exited := none }

/-- One dispatch of `main`'s event-loop closure (main.rs lines 27-50). -/
def mainStep (st : LoopState) (e : Ev) : LoopState × List LoopAct :=
  match st.exited with
  | some _ => (st, [])
  | none =>
      match e with
      | Ev.mainEventsCleared r =>
          if st.destroying || st.minimized then (st, [])
          else
            match r with
            | RenderOutcome.ok => (st, [LoopAct.renderCall])
            | RenderOutcome.fatal _ =>
                ({ st with exited := some ProcExit.panicked },
                 [LoopAct.renderCall, LoopAct.panicAbort])
      | Ev.resizedEvent w h =>
          if w == 0 || h == 0 then
            ({ st with minimized := true }, [])
          else
            ({ st with minimized := false, appResized := true }, [])
      | Ev.closeRequested =>
          ({ st with destroying := true, exited := some ProcExit.exitCode0 },
           [LoopAct.destroyCall])
      | Ev.otherEvent => (st, [])

/-- Run the event loop over a list of events. -/
def runLoop (st : LoopState) : List Ev → LoopState
  | [] => st
  | e :: es => runLoop (mainStep st e).fst es

/-- The loop state just before the `k`-th event is dispatched. -/
def loopStateAt (es : List Ev) (k : Nat) : LoopState :=
  runLoop initLoopState (es.take k)

/-- The actions the closure takes on the `k`-th event. -/
def loopActsAt (es : List Ev) (k : Nat) : List LoopAct :=
  (mainStep (loopStateAt es k) (es.getD k Ev.otherEvent)).snd

/-- Whether the last `Resized` event in the list reported a zero width
or height; `b` is the value before the list (initially `false`: the
window starts at 1024 x 768). -/
def sizeZeroAfter (b : Bool) : List Ev → Bool
  | [] => b
  | Ev.resizedEvent w h :: es => sizeZeroAfter (w == 0 || h == 0) es
  | Ev.mainEventsCleared _ :: es => sizeZeroAfter b es
  | Ev.closeRequested :: es => sizeZeroAfter b es
  | Ev.otherEvent :: es => sizeZeroAfter b es

/-- Whether the window's last reported size has a zero dimension. -/
def lastSizeZero (es : List Ev) : Bool := sizeZeroAfter false es

/-- Drive a sequence of fully successful frames (acquire succeeds with
the listed image index, present returns plain success) through
`render`. -/
def runFrames (env : RecreateEnv) (app : App) : List Nat → Option App
  | [] => some app
  | i :: rest =>
      match (render app (AcquireResult.ok i) PresentResult.success env).fst with
      | Except.ok app1 => runFrames env app1 rest
      | Except.error _ => none

/-- Position of the last occurrence of `j` in a list. -/
def lastOcc : List Nat → Nat → Option Nat
  | [], _ => none
  | i :: rest, j =>
      match lastOcc rest j with
      | some k => some (k + 1)
      | none => if i = j then some 0 else none

/-- First position of action `a` in a trace. -/
def firstIdx (t : List Action) (a : Action) : Nat :=
  t.findIdx (fun x => decide (x = a))

/-- The per-frame driver calls (steps 1-5 of the protocol), as opposed
to the teardown/rebuild calls of the recreation path. -/
def Action.isFrameOp : Action → Bool
  | Action.waitForFence _ => true
  | Action.acquireImage _ => true
  | Action.updateUniform _ => true
  | Action.resetFence _ => true
  | Action.queueSubmit _ _ _ _ _ => true
  | Action.queuePresent _ _ => true
  | _ => false

/-- Fence resets, queue submissions and presents. -/
def Action.isSubmitLike : Action → Bool
  | Action.resetFence _ => true
  | Action.queueSubmit _ _ _ _ _ => true
  | Action.queuePresent _ _ => true
  | _ => false

/-- Modelled from the spec: `pipeline.rs` (`create_render_pass`) is not
under `src/`; spec section 4.2 specifies one render pass with a color
attachment and a depth attachment (single subpass), so a framebuffer
compatible with it must supply two attachments. -/
def renderPassAttachmentCount : Nat := 2

/-! ### Concrete states used by counterexamples and witnesses -/

/-- A small well-formed registry: one swapchain image, two frame slots
(fences 10, 11; semaphore pairs 1/2 and 3/4), image 0 currently marked
in flight by fence 10. -/
def dataC : Data :=
  { swapchainImages := [20]
    swapchainImageViews := [7]
    swapchainExtent := { width := 640, height := 480 }
    renderPass := 4
    depthImageView := 9
    framebuffers := [{ renderPass := 4, attachments := [7], width := 640,
                       height := 480, layers := 1 }]
    commandBuffers := [30]
    uniformBuffers := [40]
    uniformBuffersMemory := [41]
    imageAvailableSemaphores := [1, 2]
    renderFinishedSemaphores := [3, 4]
    inFlightFences := [10, 11]
    imagesInFlight := [some 10] }

def appC : App := { data := dataC, frame := 0, resized := false }

/-- Same registry but with the resize-requested flag set. -/
def appCresized : App := { data := dataC, frame := 0, resized := true }

/-- Replacement handles handed back by the (external) builders during a
recreation. -/
def envC : RecreateEnv :=
  { newImages := [21]
    newImageViews := [8]
    newExtent := { width := 800, height := 600 }
    newRenderPass := 5
    newDepthImageView := 12
    newUniformBuffers := [42]
    newUniformBuffersMemory := [43]
    newCommandBuffers := [31] }

/-! ### Helper lemmas -/

lemma getD_set_self {α : Type} (xs : List α) (i : Nat) (a b : α)
    (h : i < xs.length) : (xs.set i a).getD i b = a := by
  simp [List.getD_eq_getElem?_getD, List.getElem?_set_self h]

lemma getD_set_ne {α : Type} (xs : List α) (i j : Nat) (a b : α)
    (h : i ≠ j) : (xs.set i a).getD j b = xs.getD j b := by
  simp [List.getD_eq_getElem?_getD, List.getElem?_set_ne h]

lemma vecResize_length {α : Type} (xs : List α) (n : Nat) (a : α) :
    (vecResize xs n a).length = n := by
  simp only [vecResize, List.length_append, List.length_take, List.length_replicate]
  omega

lemma vecResize_getD_lt {α : Type} (xs : List α) (n j : Nat) (a b : α)
    (h1 : j < xs.length) (h2 : j < n) :
    (vecResize xs n a).getD j b = xs.getD j b := by
  have hlen : j < (xs.take n).length := by
    simp only [List.length_take]
    omega
  simp [vecResize, List.getD_eq_getElem?_getD, List.getElem?_append_left hlen,
    List.getElem?_take, h2]

lemma vecResize_getD_ge {α : Type} (xs : List α) (n j : Nat) (a b : α)
    (h1 : xs.length ≤ j) (h2 : j < n) :
    (vecResize xs n a).getD j b = a := by
  have hmin : (xs.take n).length = xs.length := by
    simp only [List.length_take]
    omega
  rw [vecResize, List.getD_eq_getElem?_getD,
    List.getElem?_append_right (by rw [hmin]; exact h1), hmin,
    List.getElem?_replicate, if_pos (by omega)]
  rfl

lemma submitLike_frameOp (a : Action) (h : a.isSubmitLike = true) :
    a.isFrameOp = true := by
  cases a <;> simp_all [Action.isSubmitLike, Action.isFrameOp]

lemma not_frameOp_destroy (d : Data) :
    ∀ a ∈ destroy_swapchain_trace d, a.isFrameOp = false := by
  simp only [destroy_swapchain_trace, List.forall_mem_append, List.forall_mem_map,
    List.forall_mem_cons, List.forall_mem_ne]
  refine ⟨⟨⟨⟨⟨⟨⟨?_, ?_⟩, ?_⟩, ?_⟩, ?_⟩, ?_⟩, ?_⟩, ?_⟩ <;>
    first
      | exact fun _ _ => rfl
      | simp [Action.isFrameOp]

lemma not_frameOp_rebuild : ∀ a ∈ rebuild_trace, a.isFrameOp = false := by decide

lemma not_frameOp_recreate (app : App) (env : RecreateEnv) :
    ∀ a ∈ (recreate_swapchain app env).snd, a.isFrameOp = false := by
  intro a ha
  simp only [recreate_swapchain, List.mem_cons, List.mem_append] at ha
  rcases ha with h | h | h
  · subst h; rfl
  · exact not_frameOp_destroy _ a h
  · exact not_frameOp_rebuild a h

lemma recreate_frame (app : App) (env : RecreateEnv) :
    (recreate_swapchain app env).fst.frame = app.frame := rfl

lemma recreate_resized (app : App) (env : RecreateEnv) :
    (recreate_swapchain app env).fst.resized = app.resized := rfl

/-- The scheduler-state effect of one fully successful frame: the
acquired image's table entry is overwritten with the current slot's
fence and the frame slot advances. -/
lemma render_success_state (app : App) (i : Nat) (env : RecreateEnv)
    (hres : app.resized = false) :
    (render app (AcquireResult.ok i) PresentResult.success env).fst =
      Except.ok
        { app with
          data :=
            { app.data with
              imagesInFlight :=
                app.data.imagesInFlight.set i
                  (some (app.data.inFlightFences.getD app.frame 0)) }
          frame := (app.frame + 1) % MAX_FRAMES_IN_FLIGHT } := by
  simp [render, hres]

/-- Characterization of a run of fully successful frames: the run
succeeds, the frame slot advances once per frame, the fences are
untouched, and each table entry holds the fence of the slot that was
current at the last frame that acquired that image (or its starting
value if the image was never acquired). -/
lemma runFrames_spec (env : RecreateEnv) :
    ∀ (is : List Nat) (app : App), app.resized = false →
      app.frame < MAX_FRAMES_IN_FLIGHT →
      ∃ app2, runFrames env app is = some app2
        ∧ app2.resized = false
        ∧ app2.frame = (app.frame + is.length) % MAX_FRAMES_IN_FLIGHT
        ∧ app2.data.inFlightFences = app.data.inFlightFences
        ∧ app2.data.imagesInFlight.length = app.data.imagesInFlight.length
        ∧ ∀ j, j < app.data.imagesInFlight.length →
            app2.data.imagesInFlight.getD j none =
              (match lastOcc is j with
               | some k => some (app.data.inFlightFences.getD
                   ((app.frame + k) % MAX_FRAMES_IN_FLIGHT) 0)
               | none => app.data.imagesInFlight.getD j none) := by
  intro is
  induction is with
  | nil =>
      intro app hres hf
      refine ⟨app, rfl, hres, ?_, rfl, rfl, ?_⟩
      · simp [Nat.mod_eq_of_lt hf]
      · intro j _
        simp [lastOcc]
  | cons i rest ih =>
      intro app hres hf
      have hstep : runFrames env app (i :: rest) =
          runFrames env
            { app with
              data :=
                { app.data with
                  imagesInFlight :=
                    app.data.imagesInFlight.set i
                      (some (app.data.inFlightFences.getD app.frame 0)) }
              frame := (app.frame + 1) % MAX_FRAMES_IN_FLIGHT } rest := by
        simp only [runFrames]
        rw [render_success_state app i env hres]
      obtain ⟨app2, hrun, h1, h2, h3, h4, h5⟩ :=
        ih { app with
              data :=
                { app.data with
                  imagesInFlight :=
                    app.data.imagesInFlight.set i
                      (some (app.data.inFlightFences.getD app.frame 0)) }
              frame := (app.frame + 1) % MAX_FRAMES_IN_FLIGHT }
          hres (Nat.mod_lt _ (by simp [MAX_FRAMES_IN_FLIGHT]))
      refine ⟨app2, by rw [hstep]; exact hrun, h1, ?_, h3, ?_, ?_⟩
      · rw [h2]
        simp only [List.length_cons, MAX_FRAMES_IN_FLIGHT] at *
        omega
      · simpa using h4
      · intro j hj
        have hj1 : j < (app.data.imagesInFlight.set i
            (some (app.data.inFlightFences.getD app.frame 0))).length := by
          simpa using hj
        have hx := h5 j hj1
        cases hlo : lastOcc rest j with
        | some k =>
            rw [hlo] at hx
            rw [hx]
            simp only [lastOcc, hlo]
            congr 1
            congr 1
            simp only [MAX_FRAMES_IN_FLIGHT] at *
            omega
        | none =>
            rw [hlo] at hx
            by_cases hij : i = j
            · subst hij
              rw [hx, getD_set_self _ _ _ _ hj]
              simp only [lastOcc, hlo, if_pos rfl]
              congr 2
              simp only [MAX_FRAMES_IN_FLIGHT] at *
              omega
            · rw [hx, getD_set_ne _ _ _ _ _ hij]
              simp only [lastOcc, hlo, if_neg hij]

/-- The state transformation performed by step 3 of the protocol: record
the current slot's fence in the table entry of the acquired image. -/
def markInFlight (app : App) (i : Nat) : App :=
  { app with
    data :=
      { app.data with
        imagesInFlight :=
          app.data.imagesInFlight.set i
            (some (app.data.inFlightFences.getD app.frame 0)) } }

/-- Shape of the driver-call trace of a `render` call whose acquire
succeeded: slot-fence wait, acquire, optional cross-wait, uniform
update, fence reset, submission, present, and then either nothing or
the recreation calls. -/
lemma render_ok_trace (app : App) (i : Nat) (pres : PresentResult)
    (env : RecreateEnv) :
    ∃ tail, (render app (AcquireResult.ok i) pres env).snd =
      [Action.waitForFence (app.data.inFlightFences.getD app.frame 0),
       Action.acquireImage (app.data.imageAvailableSemaphores.getD app.frame 0)]
      ++ (match app.data.imagesInFlight.getD i none with
          | some f => [Action.waitForFence f]
          | none => [])
      ++ [Action.updateUniform i,
          Action.resetFence (app.data.inFlightFences.getD app.frame 0),
          Action.queueSubmit (app.data.imageAvailableSemaphores.getD app.frame 0)
            Stage.colorAttachmentOutput (app.data.commandBuffers.getD i 0)
            (app.data.renderFinishedSemaphores.getD app.frame 0)
            (app.data.inFlightFences.getD app.frame 0),
          Action.queuePresent (app.data.renderFinishedSemaphores.getD app.frame 0) i]
      ++ tail
      ∧ ((∀ a ∈ tail, a.isFrameOp = false)
          ∧ (tail = [] ∨ Action.deviceWaitIdle ::
              (destroy_swapchain_trace (markInFlight app i).data ++ rebuild_trace)
                = tail)) := by
  cases hres : app.resized with
  | true =>
      refine ⟨_, ?_, ?_, Or.inr rfl⟩
      · simp [render, hres, recreate_swapchain, markInFlight, List.append_assoc]
      · intro a ha
        exact not_frameOp_recreate { markInFlight app i with resized := false } env a ha
  | false =>
      cases pres with
      | success =>
          refine ⟨[], ?_, by simp, Or.inl rfl⟩
          simp [render, hres, List.append_assoc]
      | err e =>
          refine ⟨[], ?_, by simp, Or.inl rfl⟩
          simp [render, hres, List.append_assoc]
      | suboptimal =>
          refine ⟨_, ?_, ?_, Or.inr rfl⟩
          · simp [render, hres, recreate_swapchain, markInFlight, List.append_assoc]
          · intro a ha
            exact not_frameOp_recreate { markInFlight app i with resized := false } env a ha
      | outOfDate =>
          refine ⟨_, ?_, ?_, Or.inr rfl⟩
          · simp [render, hres, recreate_swapchain, markInFlight, List.append_assoc]
          · intro a ha
            exact not_frameOp_recreate { markInFlight app i with resized := false } env a ha

/-- The frame-slot field of any `Ok` result of a `render` call whose
acquire succeeded. -/
lemma render_ok_frame (app : App) (i : Nat) (pres : PresentResult)
    (env : RecreateEnv) (app2 : App)
    (h : (render app (AcquireResult.ok i) pres env).fst = Except.ok app2) :
    app2.frame = (app.frame + 1) % MAX_FRAMES_IN_FLIGHT := by
  cases hres : app.resized <;> cases pres <;>
    simp [render, hres] at h <;> subst h <;> rfl

/-! ### Claim theorems -/

/-- **C1**: in a render call whose acquire returns image index `i`, a
non-null images-in-flight entry for `i` is waited on immediately after
the acquire, before any other driver call concerning that image, and
after any sequence of successful frames starting from an all-null table
every entry is either null or the in-flight fence of the frame slot
that was current at the most recent frame that used that image. -/
theorem C1_cross_wait_and_table_invariant (app : App) (i : Nat)
    (pres : PresentResult) (env : RecreateEnv) (f : Fence)
    (hf : app.data.imagesInFlight.getD i none = some f) :
    (∃ rest, (render app (AcquireResult.ok i) pres env).snd =
        Action.waitForFence (app.data.inFlightFences.getD app.frame 0)
          :: Action.acquireImage (app.data.imageAvailableSemaphores.getD app.frame 0)
          :: Action.waitForFence f
          :: Action.updateUniform i :: rest)
  ∧ (∀ (is : List Nat) (start : App), start.resized = false →
      start.frame < MAX_FRAMES_IN_FLIGHT →
      (∀ j, j < start.data.imagesInFlight.length →
          start.data.imagesInFlight.getD j none = none) →
      ∃ app2, runFrames env start is = some app2
        ∧ ∀ j, j < start.data.imagesInFlight.length →
            app2.data.imagesInFlight.getD j none =
              (match lastOcc is j with
               | some k => some (start.data.inFlightFences.getD
                   ((start.frame + k) % MAX_FRAMES_IN_FLIGHT) 0)
               | none => none)) := by
  constructor
  · obtain ⟨tail, htr, -⟩ := render_ok_trace app i pres env
    rw [hf] at htr
    refine ⟨[Action.resetFence (app.data.inFlightFences.getD app.frame 0),
             Action.queueSubmit (app.data.imageAvailableSemaphores.getD app.frame 0)
               Stage.colorAttachmentOutput (app.data.commandBuffers.getD i 0)
               (app.data.renderFinishedSemaphores.getD app.frame 0)
               (app.data.inFlightFences.getD app.frame 0),
             Action.queuePresent (app.data.renderFinishedSemaphores.getD app.frame 0) i]
            ++ tail, ?_⟩
    simpa using htr
  · intro is start hres hfr hnone
    obtain ⟨app2, hrun, -, -, -, -, h5⟩ := runFrames_spec env is start hres hfr
    refine ⟨app2, hrun, fun j hj => ?_⟩
    rw [h5 j hj]
    rcases hlo : lastOcc is j with - | k
    · simp only [hlo]
      exact hnone j hj
    · simp only [hlo]

/-- **C1 witness**: in the one-image registry where entry 0 holds fence
10, the cross-wait on fence 10 is the third driver call, right after
the acquire. -/
theorem C1_witness :
    appC.data.imagesInFlight.getD 0 none = some 10
  ∧ (∃ rest, (render appC (AcquireResult.ok 0) PresentResult.success envC).snd =
      Action.waitForFence 10 :: Action.acquireImage 1 :: Action.waitForFence 10
        :: Action.updateUniform 0 :: rest) :=
  ⟨by decide,
   (C1_cross_wait_and_table_invariant appC 0 PresentResult.success envC 10 (by decide)).1⟩

/-- **C5**: a render call that returns `Ok` after a successful acquire
advances the frame slot to `(slot + 1) mod MAX_FRAMES_IN_FLIGHT`, with
`MAX_FRAMES_IN_FLIGHT = 2`, independently of the acquired image index
and of whether presentation forced a recreation. -/
theorem C5_frame_slot_advance (app : App) (i : Nat) (pres : PresentResult)
    (env : RecreateEnv) (app2 : App)
    (h : (render app (AcquireResult.ok i) pres env).fst = Except.ok app2) :
    app2.frame = (app.frame + 1) % MAX_FRAMES_IN_FLIGHT
      ∧ MAX_FRAMES_IN_FLIGHT = 2 :=
  ⟨render_ok_frame app i pres env app2 h, rfl⟩

/-- **C5 witness**: a concrete successful frame from slot 0 ends in
slot 1. -/
theorem C5_witness :
    ({ appC with frame := 1 } : App).frame = (appC.frame + 1) % MAX_FRAMES_IN_FLIGHT
      ∧ MAX_FRAMES_IN_FLIGHT = 2 :=
  C5_frame_slot_advance appC 0 PresentResult.success envC { appC with frame := 1 } (by rfl)

/-- **C3**: when acquire reports out-of-date, `render` performs no
cross-wait (the only fence waited on is the slot fence, before the
acquire), no fence reset, no submission and no present; it runs the
swapchain recreation, returns `Ok`, and leaves the frame slot
unchanged. -/
theorem C3_acquire_out_of_date (app : App) (pres : PresentResult)
    (env : RecreateEnv) :
    (render app AcquireResult.outOfDate pres env).fst
        = Except.ok (recreate_swapchain app env).fst
  ∧ (recreate_swapchain app env).fst.frame = app.frame
  ∧ (∀ a ∈ (render app AcquireResult.outOfDate pres env).snd,
        a.isSubmitLike = false)
  ∧ (∀ f, Action.waitForFence f ∈ (render app AcquireResult.outOfDate pres env).snd →
        f = app.data.inFlightFences.getD app.frame 0)
  ∧ Action.deviceWaitIdle ∈ (render app AcquireResult.outOfDate pres env).snd
  ∧ Action.createSwapchain ∈ (render app AcquireResult.outOfDate pres env).snd := by
  have hsnd : (render app AcquireResult.outOfDate pres env).snd
      = Action.waitForFence (app.data.inFlightFences.getD app.frame 0)
        :: Action.acquireImage (app.data.imageAvailableSemaphores.getD app.frame 0)
        :: (recreate_swapchain app env).snd := by
    simp [render]
  refine ⟨rfl, rfl, ?_, ?_, ?_, ?_⟩
  · intro a ha
    rw [hsnd] at ha
    simp only [List.mem_cons] at ha
    rcases ha with h | h | h
    · subst h; rfl
    · subst h; rfl
    · cases hsl : a.isSubmitLike with
      | false => rfl
      | true =>
          have hfo := submitLike_frameOp a hsl
          rw [not_frameOp_recreate app env a h] at hfo
          exact absurd hfo (by simp)
  · intro f hf
    rw [hsnd] at hf
    simp only [List.mem_cons] at hf
    rcases hf with h | h | h
    · injection h with h2
    · exact Action.noConfusion h
    · have hfo := not_frameOp_recreate app env _ h
      simp [Action.isFrameOp] at hfo
  · rw [hsnd]
    simp [recreate_swapchain]
  · rw [hsnd]
    simp [recreate_swapchain, rebuild_trace]

/-- **C3 witness**: on the concrete registry, an out-of-date acquire
yields exactly the recreated scheduler state as an `Ok` result. -/
theorem C3_witness :
    (render appC AcquireResult.outOfDate PresentResult.success envC).fst
      = Except.ok (recreate_swapchain appC envC).fst :=
  (C3_acquire_out_of_date appC PresentResult.success envC).1

/-- **C7**: every submission issued by a render call waits on the
image-available semaphore of the current frame slot at the
color-attachment-output stage, signals the render-finished semaphore
and the in-flight fence of the same slot, and carries the command
buffer of the acquired image index; the slot fence is reset immediately
before the submission. -/
theorem C7_submission_pairing (app : App) (i : Nat) (pres : PresentResult)
    (env : RecreateEnv) :
    (∀ ws st c ss f,
        Action.queueSubmit ws st c ss f ∈ (render app (AcquireResult.ok i) pres env).snd →
          ws = app.data.imageAvailableSemaphores.getD app.frame 0
          ∧ st = Stage.colorAttachmentOutput
          ∧ c = app.data.commandBuffers.getD i 0
          ∧ ss = app.data.renderFinishedSemaphores.getD app.frame 0
          ∧ f = app.data.inFlightFences.getD app.frame 0)
  ∧ ∃ pre post, (render app (AcquireResult.ok i) pres env).snd =
      pre ++ Action.resetFence (app.data.inFlightFences.getD app.frame 0)
        :: Action.queueSubmit (app.data.imageAvailableSemaphores.getD app.frame 0)
            Stage.colorAttachmentOutput (app.data.commandBuffers.getD i 0)
            (app.data.renderFinishedSemaphores.getD app.frame 0)
            (app.data.inFlightFences.getD app.frame 0)
        :: post := by
  obtain ⟨tail, htr, hnf, -⟩ := render_ok_trace app i pres env
  constructor
  · intro ws st c ss f hmem
    rcases hx : app.data.imagesInFlight.getD i none with _ | g
    · rw [hx] at htr
      rw [htr] at hmem
      simp at hmem
      rcases hmem with ⟨h1, h2, h3, h4, h5⟩ | h
      · exact ⟨by simpa using h1, h2, by simpa using h3, by simpa using h4,
          by simpa using h5⟩
      · have hfo := hnf _ h
        simp [Action.isFrameOp] at hfo
    · rw [hx] at htr
      rw [htr] at hmem
      simp at hmem
      rcases hmem with ⟨h1, h2, h3, h4, h5⟩ | h
      · exact ⟨by simpa using h1, h2, by simpa using h3, by simpa using h4,
          by simpa using h5⟩
      · have hfo := hnf _ h
        simp [Action.isFrameOp] at hfo
  · refine ⟨[Action.waitForFence (app.data.inFlightFences.getD app.frame 0),
             Action.acquireImage (app.data.imageAvailableSemaphores.getD app.frame 0)]
            ++ (match app.data.imagesInFlight.getD i none with
                | some f => [Action.waitForFence f]
                | none => [])
            ++ [Action.updateUniform i],
            Action.queuePresent (app.data.renderFinishedSemaphores.getD app.frame 0) i
              :: tail, ?_⟩
    rw [htr]
    simp [List.append_assoc]

/-- **C7 witness**: the concrete frame submits command buffer 30 with
wait semaphore 1, signal semaphore 3 and fence 10, all of frame slot 0,
at the color-attachment-output stage. -/
theorem C7_witness :
    Action.queueSubmit 1 Stage.colorAttachmentOutput 30 3 10
        ∈ (render appC (AcquireResult.ok 0) PresentResult.success envC).snd
  ∧ (1 = appC.data.imageAvailableSemaphores.getD appC.frame 0
      ∧ Stage.colorAttachmentOutput = Stage.colorAttachmentOutput
      ∧ 30 = appC.data.commandBuffers.getD 0 0
      ∧ 3 = appC.data.renderFinishedSemaphores.getD appC.frame 0
      ∧ 10 = appC.data.inFlightFences.getD appC.frame 0) :=
  ⟨by decide,
   (C7_submission_pairing appC 0 PresentResult.success envC).1 1
     Stage.colorAttachmentOutput 30 3 10 (by decide)⟩

/-- The framebuffer held by the concrete registry `dataC`. -/
def fbC : Framebuffer :=
  { renderPass := 4, attachments := [7], width := 640, height := 480, layers := 1 }

/-- Discriminator for the result of a `render` call. -/
def isOkResult : Except Nat App → Bool
  | Except.ok _ => true
  | Except.error _ => false

/-- **C2 counterexample**: recreating on a registry whose
images-in-flight table holds fence 10 at entry 0, with the new swapchain
again reporting one image, leaves entry 0 equal to fence 10: the table
is not cleared to all-null, although its length matches the new image
count. -/
theorem C2_counterexample :
    (recreate_swapchain appC envC).fst.data.imagesInFlight = [some 10]
  ∧ (recreate_swapchain appC envC).fst.data.imagesInFlight.length
      = envC.newImages.length
  ∧ (recreate_swapchain appC envC).fst.data.imagesInFlight.all Option.isNone
      = false := by
  decide

/-- **C2 amended**: after `recreate_swapchain` the images-in-flight
table has length equal to the new swapchain image count; entries at
indices beyond the old table length are null, but entries at indices
already present in the old table keep their previous fences
(`Vec::resize` only null-fills the newly added tail). -/
theorem C2_resize_images_in_flight (app : App) (env : RecreateEnv) :
    (recreate_swapchain app env).fst.data.imagesInFlight.length
        = env.newImages.length
  ∧ (∀ j, app.data.imagesInFlight.length ≤ j → j < env.newImages.length →
      (recreate_swapchain app env).fst.data.imagesInFlight.getD j none = none)
  ∧ (∀ j, j < app.data.imagesInFlight.length → j < env.newImages.length →
      (recreate_swapchain app env).fst.data.imagesInFlight.getD j none
        = app.data.imagesInFlight.getD j none) := by
  have hred : (recreate_swapchain app env).fst.data.imagesInFlight
      = vecResize app.data.imagesInFlight env.newImages.length none := rfl
  refine ⟨?_, ?_, ?_⟩
  · rw [hred]
    exact vecResize_length _ _ _
  · intro j h1 h2
    rw [hred]
    exact vecResize_getD_ge _ _ _ _ _ h1 h2
  · intro j h1 h2
    rw [hred]
    exact vecResize_getD_lt _ _ _ _ _ h1 h2

/-- **C2 witness**: on the concrete registry, entry 0 (an index that
already existed) survives the recreation unchanged. -/
theorem C2_witness :
    (recreate_swapchain appC envC).fst.data.imagesInFlight.getD 0 none
      = appC.data.imagesInFlight.getD 0 none :=
  (C2_resize_images_in_flight appC envC).2.2 0 (by decide) (by decide)

/-- **C4 counterexample**: with the resize-requested flag set, a fatal
present error (code 42) is swallowed: `render` takes the recreation
branch and returns `Ok` instead of propagating the error. -/
theorem C4_counterexample :
    appCresized.resized = true
  ∧ isOkResult
      (render appCresized (AcquireResult.ok 0) (PresentResult.err 42) envC).fst
      = true := by
  decide

/-- **C4 amended**: at the present step, staleness (suboptimal or
out-of-date) or a set resized flag leads to recreation after the
present call, a cleared flag and an `Ok` return; any other present
error is propagated as fatal only when the resized flag is clear —
when the flag is set the error is swallowed by the recreation path. -/
theorem C4_present_error_routing (app : App) (i : Nat) (env : RecreateEnv) :
    (∀ e, app.resized = false →
        (render app (AcquireResult.ok i) (PresentResult.err e) env).fst
          = Except.error e)
  ∧ (∀ pres, app.resized = true ∨ pres = PresentResult.suboptimal
        ∨ pres = PresentResult.outOfDate →
      ∃ app2, (render app (AcquireResult.ok i) pres env).fst = Except.ok app2
        ∧ app2.resized = false
        ∧ ∃ pre, (render app (AcquireResult.ok i) pres env).snd =
            pre ++ Action.queuePresent
                (app.data.renderFinishedSemaphores.getD app.frame 0) i
              :: Action.deviceWaitIdle
              :: (destroy_swapchain_trace (markInFlight app i).data
                    ++ rebuild_trace)) := by
  constructor
  · intro e hres
    simp [render, hres]
  · intro pres hp
    have hcond : (app.resized || (decide (pres = PresentResult.suboptimal)
        || decide (pres = PresentResult.outOfDate))) = true := by
      rcases hp with h | h | h <;> simp [h]
    have hfst : (render app (AcquireResult.ok i) pres env).fst
        = Except.ok
            { (recreate_swapchain { markInFlight app i with resized := false } env).fst
              with frame := (app.frame + 1) % MAX_FRAMES_IN_FLIGHT } := by
      simp [render, hcond, markInFlight]
      rfl
    refine ⟨_, hfst, rfl, ?_⟩
    · refine ⟨[Action.waitForFence (app.data.inFlightFences.getD app.frame 0),
               Action.acquireImage (app.data.imageAvailableSemaphores.getD app.frame 0)]
              ++ (match app.data.imagesInFlight.getD i none with
                  | some f => [Action.waitForFence f]
                  | none => [])
              ++ [Action.updateUniform i,
                  Action.resetFence (app.data.inFlightFences.getD app.frame 0),
                  Action.queueSubmit
                    (app.data.imageAvailableSemaphores.getD app.frame 0)
                    Stage.colorAttachmentOutput
                    (app.data.commandBuffers.getD i 0)
                    (app.data.renderFinishedSemaphores.getD app.frame 0)
                    (app.data.inFlightFences.getD app.frame 0)], ?_⟩
      simp [render, hcond, recreate_swapchain, markInFlight, List.append_assoc]

/-- **C4 witness**: with the resized flag clear, present error 7 is
propagated unchanged. -/
theorem C4_witness :
    (render appC (AcquireResult.ok 0) (PresentResult.err 7) envC).fst
      = Except.error 7 :=
  (C4_present_error_routing appC 0 envC).1 7 rfl

/-- **C6 counterexample**: in the concrete recreation trace the depth
image is destroyed strictly before the framebuffer, so framebuffers are
not destroyed before the depth resource and the teardown is not in
strict reverse-of-creation order (depth objects are created before the
framebuffers). -/
theorem C6_counterexample :
    Action.destroyDepthImage ∈ (recreate_swapchain appC envC).snd
  ∧ Action.destroyFramebuffer fbC ∈ (recreate_swapchain appC envC).snd
  ∧ firstIdx (recreate_swapchain appC envC).snd Action.destroyDepthImage
      < firstIdx (recreate_swapchain appC envC).snd (Action.destroyFramebuffer fbC) := by
  decide

/-- **C6 amended**: `recreate_swapchain` waits for device idle first,
then issues the teardown in the order command buffers, descriptor pool,
uniform buffers, depth resource (view, memory, image), framebuffers,
pipeline, pipeline layout, render pass, image views, swapchain — depth
strictly before the framebuffers — and then rebuilds in the order
swapchain, image views, render pass, pipeline, depth resource,
framebuffers, uniform buffers, descriptor pool, descriptor sets,
command buffers. -/
theorem C6_teardown_rebuild_order (app : App) (env : RecreateEnv) :
    ∃ t1 t2,
      (recreate_swapchain app env).snd =
        Action.deviceWaitIdle
          :: (t1
            ++ [Action.destroyDepthImageView, Action.freeDepthImageMemory,
                Action.destroyDepthImage]
            ++ app.data.framebuffers.map Action.destroyFramebuffer
            ++ t2
            ++ app.data.swapchainImageViews.map Action.destroyImageView
            ++ [Action.destroySwapchain]
            ++ [Action.createSwapchain, Action.createImageViews,
                Action.createRenderPass, Action.createPipeline,
                Action.createDepthObjects, Action.createFramebuffers,
                Action.createUniformBuffers, Action.createDescriptorPool,
                Action.createDescriptorSets, Action.createCommandBuffers])
      ∧ t1 = [Action.freeCommandBuffers, Action.destroyDescriptorPool]
          ++ app.data.uniformBuffersMemory.map Action.freeUniformBufferMemory
          ++ app.data.uniformBuffers.map Action.destroyUniformBuffer
      ∧ t2 = [Action.destroyPipeline, Action.destroyPipelineLayout,
              Action.destroyRenderPass] := by
  refine ⟨_, _, ?_, rfl, rfl⟩
  simp [recreate_swapchain, destroy_swapchain_trace, rebuild_trace, List.append_assoc]

/-- **C6 witness**: the concrete recreation trace indeed starts with the
device-idle wait. -/
theorem C6_witness :
    Action.deviceWaitIdle ∈ (recreate_swapchain appC envC).snd := by
  obtain ⟨t1, t2, h, -, -⟩ := C6_teardown_rebuild_order appC envC
  rw [h]
  exact List.mem_cons_self _ _

/-- **C8 counterexample**: a fatal render error makes the event loop
panic at once (`unwrap`): the process terminates on the abort path
without any destroy call, so no device-idle wait or teardown is
attempted before the loop dies. -/
theorem C8_counterexample :
    (mainStep initLoopState (Ev.mainEventsCleared (RenderOutcome.fatal 3))).fst.exited
        = some ProcExit.panicked
  ∧ LoopAct.destroyCall
      ∉ (mainStep initLoopState (Ev.mainEventsCleared (RenderOutcome.fatal 3))).snd := by
  decide

/-- **C8 amended**: a fatal render error panics the process (non-zero
abort path) immediately, with no teardown attempt; the device-idle wait
and the reverse-order teardown run only on the graceful close path,
which stops the loop with exit code 0, and `App::destroy` itself begins
with the device-idle wait. -/
theorem C8_exit_paths (st : LoopState) (e : Nat) (d : Data) (v : Bool)
    (hrun : st.exited = none) (hd : st.destroying = false)
    (hm : st.minimized = false) :
    ((mainStep st (Ev.mainEventsCleared (RenderOutcome.fatal e))).fst.exited
        = some ProcExit.panicked
      ∧ (mainStep st (Ev.mainEventsCleared (RenderOutcome.fatal e))).snd
          = [LoopAct.renderCall, LoopAct.panicAbort])
  ∧ ((mainStep st Ev.closeRequested).fst.exited = some ProcExit.exitCode0
      ∧ (mainStep st Ev.closeRequested).snd = [LoopAct.destroyCall])
  ∧ (app_destroy_trace d v).head? = some Action.deviceWaitIdle := by
  refine ⟨⟨?_, ?_⟩, ⟨?_, ?_⟩, rfl⟩ <;> simp [mainStep, hrun, hd, hm]

/-- **C8 witness**: the destroy routine of the concrete registry starts
with the device-idle wait. -/
theorem C8_witness :
    (app_destroy_trace dataC true).head? = some Action.deviceWaitIdle :=
  (C8_exit_paths initLoopState 9 dataC true rfl rfl rfl).2.2

/-- **C9** (code bug, evaluated at the failing input): on the concrete
registry with color view 7 and depth view 9, framebuffer creation
produces exactly one framebuffer per swapchain image view, bound to the
render pass and sized to the swapchain extent, but its attachment list
is `[7]` alone: the depth image view is never attached and the
attachment count does not match the (spec-modelled) two-attachment
render pass. -/
theorem C9_framebuffer_missing_depth :
    (framebuffer_create dataC).framebuffers
        = [{ renderPass := 4, attachments := [7], width := 640, height := 480,
             layers := 1 }]
  ∧ (∀ fb ∈ (framebuffer_create dataC).framebuffers,
        dataC.depthImageView ∉ fb.attachments
        ∧ fb.attachments.length ≠ renderPassAttachmentCount)
  ∧ (framebuffer_create dataC).framebuffers.length
      = dataC.swapchainImageViews.length := by
  decide

/-! ### Event-loop lemmas for C10 -/

lemma mainStep_exited (st : LoopState) (e : Ev) (x : ProcExit)
    (h : st.exited = some x) : mainStep st e = (st, []) := by
  simp [mainStep, h]

lemma runLoop_exited (es : List Ev) (st : LoopState) (x : ProcExit)
    (h : st.exited = some x) : runLoop st es = st := by
  induction es with
  | nil => rfl
  | cons e es ih =>
      rw [runLoop, mainStep_exited st e x h]
      exact ih

/-- The minimized flag after one step, when the step does not stop the
process. -/
lemma mainStep_minimized (st : LoopState) (e : Ev) (hex : st.exited = none)
    (hex2 : (mainStep st e).fst.exited = none) :
    (mainStep st e).fst.minimized = sizeZeroAfter st.minimized [e] := by
  cases e with
  | mainEventsCleared r =>
      cases r with
      | ok =>
          by_cases hg : (st.destroying || st.minimized) = true
          · simp [mainStep, hex, hg, sizeZeroAfter]
          · simp [mainStep, hex, hg, sizeZeroAfter]
      | fatal c =>
          by_cases hg : (st.destroying || st.minimized) = true
          · simp [mainStep, hex, hg, sizeZeroAfter]
          · simp [mainStep, hex, hg] at hex2
  | resizedEvent w h =>
      by_cases hz : (w == 0 || h == 0) = true
      · simp [mainStep, hex, hz, sizeZeroAfter]
      · simp [mainStep, hex, hz, sizeZeroAfter]
  | closeRequested => simp [mainStep, hex] at hex2
  | otherEvent => simp [mainStep, hex, sizeZeroAfter]

/-- The minimized flag of a run that has not stopped tracks whether the
last reported window size had a zero dimension. -/
lemma runLoop_minimized :
    ∀ (es : List Ev) (st : LoopState), (runLoop st es).exited = none →
      (runLoop st es).minimized = sizeZeroAfter st.minimized es := by
  intro es
  induction es with
  | nil => intro st _; rfl
  | cons e es ih =>
      intro st h
      rw [runLoop] at h ⊢
      cases hex : st.exited with
      | some x =>
          rw [mainStep_exited st e x hex] at h ⊢
          rw [runLoop_exited es st x hex, hex] at h
          exact Option.noConfusion h
      | none =>
          have hex2 : (mainStep st e).fst.exited = none := by
            cases hex2 : (mainStep st e).fst.exited with
            | none => rfl
            | some y =>
                rw [runLoop_exited es _ y hex2, hex2] at h
                exact Option.noConfusion h
          rw [ih (mainStep st e).fst h, mainStep_minimized st e hex hex2]
          cases e <;> rfl

/-- **C10**: while the window's last reported size has a zero width or
height, the event loop never invokes `render`; a zero-size resize event
leaves the scheduler's resized flag unchanged (and marks the loop
minimized), while a resize with both dimensions non-zero clears the
minimized state and sets the resized flag, so rendering resumes only
after such an event. -/
theorem C10_zero_size_gates_render (es : List Ev) (k : Nat) :
    (lastSizeZero (es.take k) = true → LoopAct.renderCall ∉ loopActsAt es k)
  ∧ (∀ st w h, w = 0 ∨ h = 0 →
      (mainStep st (Ev.resizedEvent w h)).fst.appResized = st.appResized
        ∧ (st.exited = none →
            (mainStep st (Ev.resizedEvent w h)).fst.minimized = true))
  ∧ (∀ st w h, w ≠ 0 → h ≠ 0 → st.exited = none →
      (mainStep st (Ev.resizedEvent w h)).fst.appResized = true
        ∧ (mainStep st (Ev.resizedEvent w h)).fst.minimized = false) := by
  refine ⟨?_, ?_, ?_⟩
  · intro hz hmem
    unfold loopActsAt at hmem
    cases hex : (loopStateAt es k).exited with
    | some x =>
        rw [mainStep_exited _ _ x hex] at hmem
        exact List.not_mem_nil _ hmem
    | none =>
        have hmin : (loopStateAt es k).minimized = true := by
          have h2 := runLoop_minimized (es.take k) initLoopState hex
          rw [loopStateAt, h2]
          exact hz
        cases hev : es.getD k Ev.otherEvent with
        | mainEventsCleared r =>
            rw [hev] at hmem
            simp [mainStep, hex, hmin] at hmem
        | resizedEvent w h =>
            rw [hev] at hmem
            by_cases hb : (w == 0 || h == 0) = true
            · simp [mainStep, hex, hb] at hmem
            · simp [mainStep, hex, hb] at hmem
        | closeRequested =>
            rw [hev] at hmem
            simp [mainStep, hex] at hmem
        | otherEvent =>
            rw [hev] at hmem
            simp [mainStep, hex] at hmem
  · intro st w h hz
    constructor
    · cases hex : st.exited with
      | some x => rw [mainStep_exited st _ x hex]
      | none =>
          have hb : (w == 0 || h == 0) = true := by
            rcases hz with rfl | rfl <;> simp
          simp [mainStep, hex, hb]
    · intro hex
      have hb : (w == 0 || h == 0) = true := by
        rcases hz with rfl | rfl <;> simp
      simp [mainStep, hex, hb]
  · intro st w h hw hh hex
    have hb : (w == 0 || h == 0) = false := by
      simp [hw, hh]
    constructor <;> simp [mainStep, hex, hb]

/-- **C10 witness**: after a resize to width 0, the next tick does not
invoke `render`. -/
theorem C10_witness :
    lastSizeZero ([Ev.resizedEvent 0 5,
        Ev.mainEventsCleared RenderOutcome.ok].take 1) = true
  ∧ LoopAct.renderCall
      ∉ loopActsAt [Ev.resizedEvent 0 5, Ev.mainEventsCleared RenderOutcome.ok] 1 :=
  ⟨by decide,
   (C10_zero_size_gates_render
      [Ev.resizedEvent 0 5, Ev.mainEventsCleared RenderOutcome.ok] 1).1 (by decide)⟩

end RustVulkan
